import Mathlib

/-!
Verification of the service-control backend of systemd-pilot
(src/service_manager.rs) against its specification.

The Rust code is shallowly embedded: strings are Lean `String`s, and the
standard-library string operations the source uses (`split_whitespace`,
`lines`, `trim`, `to_lowercase`, `trim_end_matches`, `split_once`,
`starts_with`, `join`) are modelled by executable functions on the
underlying character lists (ASCII-faithful; none of the inputs the claims
touch contain non-ASCII text).  Fallible Rust code returns `Except`;
`anyhow::Error` is modelled as the message `String` it carries.
-/

/-- Splits a character list at every character satisfying `p`, keeping empty
chunks, like Rust `str::split`.  The separators are discarded. -/
def splitListBy (p : Char → Bool) : List Char → List (List Char)
  | [] => [[]]
  | c :: rest =>
    let r := splitListBy p rest
    if p c then [] :: r
    else
      match r with
      | g :: gs => (c :: g) :: gs
      | [] => [[c]]

/-- Model of Rust `str::split_whitespace`: split on whitespace and drop the
empty chunks. -/
def splitWhitespace (s : String) : List String :=
  ((splitListBy Char.isWhitespace s.data).filter (fun l => l ≠ [])).map
    (fun l => (⟨l⟩ : String))

/-- Drops one trailing carriage return, as Rust `str::lines` does when a line
ends in `\r\n`. -/
def stripCr (l : List Char) : List Char :=
  if l.getLast? = some '\r' then l.dropLast else l

/-- Model of Rust `str::lines`: split on `\n`, treat a final line ending as
optional (no trailing empty line), and strip a trailing `\r` per line. -/
def rustLines (s : String) : List String :=
  let chunks := splitListBy (fun c => c = '\n') s.data
  let chunks := if chunks.getLast? = some [] then chunks.dropLast else chunks
  chunks.map (fun l => (⟨stripCr l⟩ : String))

/-- Model of Rust `str::trim` (whitespace from both ends). -/
def trimChars (l : List Char) : List Char :=
  ((l.dropWhile Char.isWhitespace).reverse.dropWhile Char.isWhitespace).reverse

/-- String form of `trimChars`. -/
def trimStr (s : String) : String := ⟨trimChars s.data⟩

/-- Model of Rust `str::to_lowercase` (ASCII range, which is all the
status keywords use). -/
def strToLower (s : String) : String := ⟨s.data.map Char.toLower⟩

/-- Model of Rust `str::starts_with` on string patterns. -/
def strStartsWith (pat s : String) : Bool := pat.data.isPrefixOf s.data

/-- One pass of `trim_end_matches(".service")`: the fuel argument bounds the
number of stripping rounds; `trimEndService` supplies fuel `l.length`, which
is enough because every round removes 8 characters. -/
def trimEndServiceAux : Nat → List Char → List Char
  | 0, l => l
  | n + 1, l =>
    if ".service".data.isSuffixOf l then
      trimEndServiceAux n (l.take (l.length - 8))
    else l

/-- Model of Rust `s.trim_end_matches(".service")`: repeatedly remove the
suffix `".service"` from the end. -/
def trimEndService (s : String) : String :=
  ⟨trimEndServiceAux s.data.length s.data⟩

/-- Model of Rust `[String]::join(sep)`. -/
def joinWith (sep : String) (xs : List String) : String :=
  match xs with
  | [] => ""
  | x :: rest => rest.foldl (fun acc y => acc ++ sep ++ y) x

/-- Model of Rust `str::split_once('=')`: split at the first `=`, `none`
when there is no `=` in the line. -/
def splitOnceEq (line : String) : Option (String × String) :=
  match splitListBy (fun c => c = '=') line.data with
  | [] => none
  | [_] => none
  | k :: rest => some (⟨k⟩, joinWith "=" (rest.map (fun r => (⟨r⟩ : String))))

/-- `ServiceStatus` (src/service_manager.rs:22-28). -/
inductive ServiceStatus where
  | Active
  | Inactive
  | Failed
  | Unknown
deriving DecidableEq

/-- `impl fmt::Display for ServiceStatus` (src/service_manager.rs:30-39). -/
def ServiceStatus.display : ServiceStatus → String
  | .Active => "Active"
  | .Inactive => "Inactive"
  | .Failed => "Failed"
  | .Unknown => "Unknown"

/-- `impl From for ServiceStatus` (src/service_manager.rs:41-50): lowercase
the input, then match the three keywords, anything else is `Unknown`.
(`from` is a reserved word in Lean, hence `fromStr`.) -/
def ServiceStatus.fromStr (status : String) : ServiceStatus :=
  let t := strToLower status
  if t = "active" then .Active
  else if t = "inactive" then .Inactive
  else if t = "failed" then .Failed
  else .Unknown

/-- `ServiceInfo` (src/service_manager.rs:11-20). -/
structure ServiceInfo where
  name : String
  status : ServiceStatus
  description : Option String
  enabled : Bool
  active : Bool
  load_state : String
  sub_state : String
deriving DecidableEq

namespace ServiceManager

/-- `ServiceManager::parse_service_line` (src/service_manager.rs:221-250):
split the row on whitespace, require at least 4 fields, strip trailing
`.service` repetitions from the name, join any remaining fields into the
description.  `enabled` is always false here, `active` compares the raw
(unlowercased) active-state field against `"active"` exactly. -/
def parse_service_line (line : String) : Option ServiceInfo :=
  let parts := splitWhitespace line
  if parts.length < 4 then none
  else
    let name := trimEndService (parts.getD 0 "")
    let load_state := parts.getD 1 ""
    let active_state := parts.getD 2 ""
    let sub_state := parts.getD 3 ""
    let description :=
      if 4 < parts.length then some (joinWith " " (parts.drop 4)) else none
    some { name := name
           status := ServiceStatus.fromStr active_state
           description := description
           enabled := false
           active := active_state == "active"
           load_state := load_state
           sub_state := sub_state }

/-- The header scan of `parse_service_list` (src/service_manager.rs:200-206):
`start_idx` is one past the first line starting with `"UNIT"`, and 0 when no
such line exists. -/
def headerStartAux : Nat → List String → Nat
  | _, [] => 0
  | i, l :: rest =>
    if strStartsWith "UNIT" l then i + 1 else headerStartAux (i + 1) rest

/-- The loop-break condition of `parse_service_list`
(src/service_manager.rs:209): a blank (whitespace-only) line or a line
starting with `"LOAD"` ends the listing body. -/
def isListTerminator (line : String) : Bool :=
  trimStr line = "" || strStartsWith "LOAD" line

/-- The candidate rows the row loop of `parse_service_list` visits before
breaking. -/
def candidateRows (lines : List String) : List String :=
  lines.takeWhile (fun l => !(isListTerminator l))

/-- `ServiceManager::parse_service_list` (src/service_manager.rs:195-219).
The Rust function returns `Result` but is always `Ok`, so the model returns
the list directly. -/
def parse_service_list (output : String) : List ServiceInfo :=
  let lines := rustLines output
  (candidateRows (lines.drop (headerStartAux 0 lines))).filterMap
    parse_service_line

/-- The key=value accumulation of `parse_service_status`
(src/service_manager.rs:253-259): one `(trimmed key, trimmed value)` pair
per line containing `=`. -/
def propPairs (output : String) : List (String × String) :=
  (rustLines output).filterMap (fun line =>
    (splitOnceEq line).map (fun kv => (trimStr kv.1, trimStr kv.2)))

/-- `HashMap::get` over `propPairs`: the last inserted value for a key wins,
as with `HashMap::insert`. -/
def lookupProp (props : List (String × String)) (key : String) : Option String :=
  (props.reverse.find? (fun kv => kv.1 == key)).map (fun kv => kv.2)

/-- `ServiceManager::parse_service_status` (src/service_manager.rs:252-280).
Missing keys default to `"unknown"`; the unit name is the caller-supplied
`service_name`, copied verbatim.  Always `Ok` in the source, so the model
returns `ServiceInfo` directly. -/
def parse_service_status (service_name output : String) : ServiceInfo :=
  let props := propPairs output
  let active_state := (lookupProp props "ActiveState").getD "unknown"
  let sub_state := (lookupProp props "SubState").getD "unknown"
  let load_state := (lookupProp props "LoadState").getD "unknown"
  let unit_file_state := (lookupProp props "UnitFileState").getD "unknown"
  let description := lookupProp props "Description"
  { name := service_name
    status := ServiceStatus.fromStr active_state
    description := description
    enabled := unit_file_state == "enabled"
    active := active_state == "active"
    load_state := load_state
    sub_state := sub_state }

end ServiceManager

namespace RemoteServiceManager

/-- `RemoteServiceManager::parse_service_line` (src/service_manager.rs:
387-416), duplicated verbatim from the local manager in the source. -/
def parse_service_line (line : String) : Option ServiceInfo :=
  let parts := splitWhitespace line
  if parts.length < 4 then none
  else
    let name := trimEndService (parts.getD 0 "")
    let load_state := parts.getD 1 ""
    let active_state := parts.getD 2 ""
    let sub_state := parts.getD 3 ""
    let description :=
      if 4 < parts.length then some (joinWith " " (parts.drop 4)) else none
    some { name := name
           status := ServiceStatus.fromStr active_state
           description := description
           enabled := false
           active := active_state == "active"
           load_state := load_state
           sub_state := sub_state }

/-- `RemoteServiceManager::parse_service_list` (src/service_manager.rs:
361-385), duplicated verbatim from the local manager in the source. -/
def parse_service_list (output : String) : List ServiceInfo :=
  let lines := rustLines output
  (ServiceManager.candidateRows
      (lines.drop (ServiceManager.headerStartAux 0 lines))).filterMap
    parse_service_line

/-- `RemoteServiceManager::parse_service_status` (src/service_manager.rs:
418-446), duplicated verbatim from the local manager in the source. -/
def parse_service_status (service_name output : String) : ServiceInfo :=
  let props := ServiceManager.propPairs output
  let active_state := (ServiceManager.lookupProp props "ActiveState").getD "unknown"
  let sub_state := (ServiceManager.lookupProp props "SubState").getD "unknown"
  let load_state := (ServiceManager.lookupProp props "LoadState").getD "unknown"
  let unit_file_state := (ServiceManager.lookupProp props "UnitFileState").getD "unknown"
  let description := ServiceManager.lookupProp props "Description"
  { name := service_name
    status := ServiceStatus.fromStr active_state
    description := description
    enabled := unit_file_state == "enabled"
    active := active_state == "active"
    load_state := load_state
    sub_state := sub_state }

/-- `RemoteServiceManager::execute_command` (src/service_manager.rs:348-359).
The source is an explicit placeholder: it ignores the SSH session entirely
and returns `Ok("".to_string())` for every command.  `anyhow::Error` is
modelled as its message string. -/
def execute_command (command : String) : Except String String :=
  Except.ok ""

end RemoteServiceManager

/-- The argument-vector state of a `tokio::process::Command` builder: the
program name and the argument list accumulated by `arg`/`args` calls. -/
structure TokioCommand where
  program : String
  argv : List String
deriving DecidableEq

/-- `Command::new`. -/
def TokioCommand.new (program : String) : TokioCommand := ⟨program, []⟩

/-- `Command::arg`: append one argument. -/
def TokioCommand.arg (c : TokioCommand) (a : String) : TokioCommand :=
  { c with argv := c.argv ++ [a] }

/-- `Command::args`: append a list of arguments. -/
def TokioCommand.args (c : TokioCommand) (as : List String) : TokioCommand :=
  { c with argv := c.argv ++ as }

namespace ServiceManager

/-- The command built by `ServiceManager::list_local_services`
(src/service_manager.rs:61-69): `systemctl list-units --type=service
--no-pager`, plus `--all` when `show_inactive` is set. -/
def list_local_services_cmd (show_inactive : Bool) : TokioCommand :=
  let cmd := TokioCommand.new "systemctl"
  let cmd := cmd.args ["list-units", "--type=service", "--no-pager"]
  if show_inactive then cmd.arg "--all" else cmd

/-- The command built by `ServiceManager::get_service_status`
(src/service_manager.rs:82-88): `systemctl show <unit> --no-pager`. -/
def get_service_status_cmd (service_name : String) : TokioCommand :=
  (TokioCommand.new "systemctl").args ["show", service_name, "--no-pager"]

/-- The command built by `ServiceManager::get_service_logs`
(src/service_manager.rs:123-129): `journalctl -u <unit> --no-pager`, plus
`-n <N>` when a line bound is given (`u32` rendered in decimal). -/
def get_service_logs_cmd (service_name : String) (lines : Option Nat) :
    TokioCommand :=
  let cmd := (TokioCommand.new "journalctl").args ["-u", service_name, "--no-pager"]
  match lines with
  | some n => cmd.args ["-n", toString n]
  | none => cmd

end ServiceManager

/-- The observable outcome of one external command: its exit-status success
flag and captured stderr. -/
structure ExecOutcome where
  success : Bool
  stderr : String
deriving DecidableEq

/-- The side effects `create_service_file` can perform, as a trace: the
elevated `sudo tee` write, a `systemctl` invocation, or a file deletion
(which the source never performs — it is in the type so that its absence is
expressible). -/
inductive SysAction where
  | elevatedWrite (path content : String)
  | systemctl (args : List String)
  | deleteFile (path : String)
deriving DecidableEq

/-- The environment for one `create_service_file` run: the outcome the OS
gives the elevated write and the outcome of the subsequent daemon-reload. -/
structure InstallEnv where
  write : ExecOutcome
  reload : ExecOutcome
deriving DecidableEq

namespace ServiceManager

/-- `ServiceManager::run_systemctl_command` (src/service_manager.rs:179-193)
under outcome `o`: one `systemctl args` invocation; failure carries
`"systemctl command failed: "` plus stderr. -/
def run_systemctl_command (o : ExecOutcome) (args : List String) :
    List SysAction × Except String Unit :=
  ([SysAction.systemctl args],
   if o.success then Except.ok ()
   else Except.error ("systemctl command failed: " ++ o.stderr))

/-- `ServiceManager::daemon_reload` (src/service_manager.rs:145-147). -/
def daemon_reload (o : ExecOutcome) : List SysAction × Except String Unit :=
  run_systemctl_command o ["daemon-reload"]

/-- `ServiceManager::create_service_file` (src/service_manager.rs:149-177):
write `content` to `/etc/systemd/system/<name>.service` via `sudo tee`; on
write failure return `"Failed to create service file: "` plus stderr without
running anything else; on success run `daemon_reload` and propagate its
error.  The trace records every external action performed. -/
def create_service_file (env : InstallEnv) (service_name content : String) :
    List SysAction × Except String Unit :=
  let service_path := "/etc/systemd/system/" ++ service_name ++ ".service"
  let writeActs := [SysAction.elevatedWrite service_path content]
  if !env.write.success then
    (writeActs, Except.error ("Failed to create service file: " ++ env.write.stderr))
  else
    let reloadRun := daemon_reload env.reload
    (writeActs ++ reloadRun.1,
     match reloadRun.2 with
     | Except.error e => Except.error e
     | Except.ok () => Except.ok ())

end ServiceManager

/-! Helper lemmas shared by the claim theorems. -/

/-- A write failure and a reload failure carry distinct messages: the two
`anyhow` messages of `create_service_file` and `run_systemctl_command`
never coincide, whatever stderr each captured. -/
theorem createMsg_ne_systemctlMsg (s t : String) :
    ("Failed to create service file: " ++ s) ≠
      ("systemctl command failed: " ++ t) := by
  obtain ⟨sd⟩ := s
  obtain ⟨td⟩ := t
  intro h
  have hd := congrArg String.data h
  injection hd with h1 _
  exact absurd h1 (by decide)

/-- Inversion for `parse_service_line`: when it returns a unit, each field
is the stated function of the whitespace-split row. -/
theorem parse_service_line_fields (row : String) (u : ServiceInfo)
    (h : ServiceManager.parse_service_line row = some u) :
    u.status = ServiceStatus.fromStr ((splitWhitespace row).getD 2 "") ∧
    u.active = ((splitWhitespace row).getD 2 "" == "active") ∧
    u.name = trimEndService ((splitWhitespace row).getD 0 "") := by
  unfold ServiceManager.parse_service_line at h
  by_cases h4 : (splitWhitespace row).length < 4
  · rw [if_pos h4] at h
    exact absurd h (by simp)
  · rw [if_neg h4] at h
    injection h with h2
    subst h2
    exact ⟨rfl, rfl, rfl⟩

/-- A status string that compares `BEq`-equal to `"active"` converts to
`ServiceStatus.Active`. -/
theorem fromStr_active_of_beq (as : String) (h : (as == "active") = true) :
    ServiceStatus.fromStr as = ServiceStatus.Active := by
  have : as = "active" := eq_of_beq h
  subst this
  decide

/-- When no line starts with `"UNIT"`, the header scan leaves the start
index at 0. -/
theorem headerStartAux_eq_zero (l : List String) (k : Nat)
    (h : ∀ x ∈ l, strStartsWith "UNIT" x = false) :
    ServiceManager.headerStartAux k l = 0 := by
  induction l generalizing k with
  | nil => rfl
  | cons x rest ih =>
    unfold ServiceManager.headerStartAux
    rw [h x (by simp)]
    simp only [Bool.false_eq_true, if_false]
    exact ih (k + 1) (fun y hy => h y (by simp [hy]))

/-- When line `i` is the first line starting with `"UNIT"`, the header scan
started at `k` returns `k + i + 1`. -/
theorem headerStartAux_eq_of_first (l : List String) : ∀ (i k : Nat),
    (∀ j, j < i → strStartsWith "UNIT" (l.getD j "") = false) →
    i < l.length → strStartsWith "UNIT" (l.getD i "") = true →
    ServiceManager.headerStartAux k l = k + i + 1 := by
  induction l with
  | nil => intro i k _ hi _; simp at hi
  | cons x rest ih =>
    intro i k hbefore hi hx
    match i with
    | 0 =>
      simp only [List.getD_cons_zero] at hx
      unfold ServiceManager.headerStartAux
      rw [hx]
      simp
    | i' + 1 =>
      have hx0 : strStartsWith "UNIT" x = false := by
        have := hbefore 0 (Nat.succ_pos _)
        simpa using this
      unfold ServiceManager.headerStartAux
      rw [hx0]
      simp only [Bool.false_eq_true, if_false]
      have hrec := ih i' (k + 1)
        (fun j hj => by
          have := hbefore (j + 1) (Nat.succ_lt_succ hj)
          simpa using this)
        (by simpa using Nat.lt_of_succ_lt_succ hi)
        (by simpa using hx)
      omega

/-! The claim theorems. -/

/-- Claim C1, counterexample: on the listing row `"foo.service loaded ACTIVE
running"` the parser produces a unit with `status = Active` (the status
lookup lowercases) but `active = false` (the flag compares the raw field
against `"active"` exactly), so `active == (status == Active)` fails. -/
theorem C1_counterexample :
    (ServiceManager.parse_service_list
        "UNIT LOAD ACTIVE SUB\nfoo.service loaded ACTIVE running\n").map
      (fun u => (u.status, u.active)) = [(ServiceStatus.Active, false)] := by
  decide

/-- Claim C1, amended: in every unit produced by `parse_service_list` or
`parse_service_status`, `active = true` implies `status = Active` (the
converse fails for non-lowercase spellings of the active state, since
`active` is an exact comparison with `"active"` while `status` lowercases
first). -/
theorem C1_amended_active_implies_Active :
    (∀ output : String, ∀ u ∈ ServiceManager.parse_service_list output,
        u.active = true → u.status = ServiceStatus.Active) ∧
    (∀ service_name output : String,
        (ServiceManager.parse_service_status service_name output).active = true →
        (ServiceManager.parse_service_status service_name output).status =
          ServiceStatus.Active) := by
  constructor
  · intro output u hmem hact
    unfold ServiceManager.parse_service_list at hmem
    obtain ⟨row, _, hsome⟩ := List.mem_filterMap.mp hmem
    obtain ⟨hstatus, hactive, _⟩ := parse_service_line_fields row u hsome
    rw [hstatus]
    exact fromStr_active_of_beq _ (hactive ▸ hact)
  · intro service_name output hact
    exact fromStr_active_of_beq _ hact

/-- Claim C1, witness for the amended theorem: the lowercase row
`"foo.service loaded active running"` yields a unit with `active = true`,
and the theorem concludes its status is `Active`. -/
theorem C1_witness :
    (⟨"foo", ServiceStatus.Active, none, false, true, "loaded", "running"⟩ :
      ServiceInfo).status = ServiceStatus.Active :=
  C1_amended_active_implies_Active.1
    "UNIT LOAD ACTIVE SUB\nfoo.service loaded active running\n" _
    (by decide) (by decide)

/-- Claim C2, counterexample: `parse_service_status` copies the caller's
name verbatim, so the name `"foo.service"` keeps its `.service` suffix; and
a listing row whose first field is exactly `".service"` produces a unit
whose name is empty. -/
theorem C2_counterexample :
    (ServiceManager.parse_service_status "foo.service" "").name =
      "foo" ++ ".service" ∧
    (ServiceManager.parse_service_list ".service loaded active running").map
      ServiceInfo.name = [""] := by
  constructor
  · decide
  · decide

/-- Claim C2, amended: the name of a unit from `parse_service_line` is the
row's first whitespace field with every trailing `".service"` occurrence
stripped (which can be empty, and can still contain `".service"` away from
the end), while `parse_service_status` returns the caller-supplied name
verbatim, with no stripping. -/
theorem C2_amended_names :
    (∀ service_name output : String,
        (ServiceManager.parse_service_status service_name output).name =
          service_name) ∧
    (∀ row : String, ∀ u : ServiceInfo,
        ServiceManager.parse_service_line row = some u →
        u.name = trimEndService ((splitWhitespace row).getD 0 "")) :=
  ⟨fun _ _ => rfl, fun row u h => (parse_service_line_fields row u h).2.2⟩

/-- Claim C2, witness for the amended theorem: on the row `".service loaded
active running"` the parsed unit's name is `".service"` stripped of its
trailing suffix, i.e. the empty string. -/
theorem C2_witness :
    (⟨"", ServiceStatus.Active, none, false, true, "loaded", "running"⟩ :
      ServiceInfo).name =
      trimEndService ((splitWhitespace ".service loaded active running").getD 0 "") :=
  C2_amended_names.2 ".service loaded active running" _ (by decide)

/-- Claim C3: the remote `execute_command` is a placeholder that ignores the
session state entirely and returns `Ok("")` for every command, instead of
failing with `ExecError::NoSession` when no session is established as the
specification requires. -/
theorem C3_execute_command_stub (command : String) :
    RemoteServiceManager.execute_command command = Except.ok "" := rfl

/-- Claim C5: `parse_service_status` on the single line
`"ActiveState=failed\n"` defaults every missing key: the result has
`status = Failed`, `enabled = false`, `description = none` and
`load_state = "unknown"`, for any unit name. -/
theorem C5_missing_keys_default (service_name : String) :
    (ServiceManager.parse_service_status service_name "ActiveState=failed\n").status =
      ServiceStatus.Failed ∧
    (ServiceManager.parse_service_status service_name "ActiveState=failed\n").enabled =
      false ∧
    (ServiceManager.parse_service_status service_name "ActiveState=failed\n").description =
      none ∧
    (ServiceManager.parse_service_status service_name "ActiveState=failed\n").load_state =
      "unknown" :=
  ⟨rfl, rfl, rfl, rfl⟩

/-- Claim C6: converting each of `"active"`, `"inactive"`, `"failed"` to a
`ServiceStatus` and rendering it back yields the canonical capitalized
form; the conversion is case-insensitive (it depends only on the lowercased
input) and sends every unrecognized token to `Unknown`. -/
theorem C6_status_string_roundtrip :
    (ServiceStatus.fromStr "active").display = "Active" ∧
    (ServiceStatus.fromStr "inactive").display = "Inactive" ∧
    (ServiceStatus.fromStr "failed").display = "Failed" ∧
    (∀ s t : String, strToLower s = strToLower t →
        ServiceStatus.fromStr s = ServiceStatus.fromStr t) ∧
    (∀ s : String, strToLower s ≠ "active" → strToLower s ≠ "inactive" →
        strToLower s ≠ "failed" → ServiceStatus.fromStr s = ServiceStatus.Unknown) := by
  refine ⟨by decide, by decide, by decide, ?_, ?_⟩
  · intro s t h
    unfold ServiceStatus.fromStr
    rw [h]
  · intro s h1 h2 h3
    unfold ServiceStatus.fromStr
    rw [if_neg h1, if_neg h2, if_neg h3]

/-- Claim C6, witness: `"AcTiVe"` and `"active"` have the same lowercase
form so they convert equally, and the unrecognized token `"bogus"` converts
to `Unknown`. -/
theorem C6_witness :
    ServiceStatus.fromStr "AcTiVe" = ServiceStatus.fromStr "active" ∧
    ServiceStatus.fromStr "bogus" = ServiceStatus.Unknown :=
  ⟨C6_status_string_roundtrip.2.2.2.1 "AcTiVe" "active" (by decide),
   C6_status_string_roundtrip.2.2.2.2 "bogus" (by decide) (by decide) (by decide)⟩

/-- Claim C10: the `RemoteServiceManager` parsers are extensionally equal to
the `ServiceManager` parsers — the source duplicates the code verbatim. -/
theorem C10_remote_local_parsers_agree :
    (∀ output : String,
        RemoteServiceManager.parse_service_list output =
          ServiceManager.parse_service_list output) ∧
    (∀ service_name output : String,
        RemoteServiceManager.parse_service_status service_name output =
          ServiceManager.parse_service_status service_name output) :=
  ⟨fun _ => rfl, fun _ _ => rfl⟩

/-- Claim C4: when line `i` of the listing is the first line starting with
`"UNIT"`, `parse_service_list` returns exactly the units of the candidate
rows (the lines after the header, up to the first blank or `"LOAD"` line),
in order, where a row yields a unit exactly when it has at least 4
whitespace fields — rows with fewer are skipped without failing the parse;
in particular the listing `"UNIT LOAD ACTIVE SUB\nfoo.service loaded\n"`
parses to the empty sequence. -/
theorem C4_listing_row_discipline (output : String) (i : Nat)
    (hlt : i < (rustLines output).length)
    (hunit : strStartsWith "UNIT" ((rustLines output).getD i "") = true)
    (hfirst : ∀ j, j < i → strStartsWith "UNIT" ((rustLines output).getD j "") = false) :
    ServiceManager.parse_service_list output =
      (ServiceManager.candidateRows ((rustLines output).drop (i + 1))).filterMap
        ServiceManager.parse_service_line ∧
    (∀ row : String, (ServiceManager.parse_service_line row).isSome ↔
        4 ≤ (splitWhitespace row).length) ∧
    ServiceManager.parse_service_list "UNIT LOAD ACTIVE SUB\nfoo.service loaded\n" = [] := by
  refine ⟨?_, ?_, by decide⟩
  · simp only [ServiceManager.parse_service_list]
    rw [headerStartAux_eq_of_first (rustLines output) i 0 hfirst hlt hunit]
    rw [Nat.zero_add]
  · intro row
    unfold ServiceManager.parse_service_line
    by_cases h : (splitWhitespace row).length < 4
    · rw [if_pos h]
      simp only [Option.isSome_none, Bool.false_eq_true, false_iff]
      omega
    · rw [if_neg h]
      simp only [Option.isSome_some, true_iff]
      omega

/-- Claim C4, witness: the specification's own example listing, whose header
is line 0; the parse equals the filtered candidate rows after the header. -/
theorem C4_witness :
    ServiceManager.parse_service_list
        "UNIT LOAD ACTIVE SUB DESCRIPTION\nsshd.service loaded active running OpenSSH server\n" =
      (ServiceManager.candidateRows
          ((rustLines "UNIT LOAD ACTIVE SUB DESCRIPTION\nsshd.service loaded active running OpenSSH server\n").drop
            (0 + 1))).filterMap ServiceManager.parse_service_line ∧
    (∀ row : String, (ServiceManager.parse_service_line row).isSome ↔
        4 ≤ (splitWhitespace row).length) ∧
    ServiceManager.parse_service_list "UNIT LOAD ACTIVE SUB\nfoo.service loaded\n" = [] :=
  C4_listing_row_discipline
    "UNIT LOAD ACTIVE SUB DESCRIPTION\nsshd.service loaded active running OpenSSH server\n"
    0 (by decide) (by decide) (fun j hj => absurd hj (Nat.not_lt_zero j))

/-- Claim C9: when no line of the input starts with `"UNIT"`, the start
index stays 0, so every line from the very first is a candidate row (up to
the first blank or `"LOAD"` line); headerless input is parsed, not returned
empty: the single row `"a.service loaded active running"` yields one unit. -/
theorem C9_headerless_rows_parsed (output : String)
    (h : ∀ l ∈ rustLines output, strStartsWith "UNIT" l = false) :
    ServiceManager.parse_service_list output =
      (ServiceManager.candidateRows (rustLines output)).filterMap
        ServiceManager.parse_service_line ∧
    ServiceManager.parse_service_list "a.service loaded active running" =
      [⟨"a", ServiceStatus.Active, none, false, true, "loaded", "running"⟩] := by
  refine ⟨?_, by decide⟩
  simp only [ServiceManager.parse_service_list]
  rw [headerStartAux_eq_zero (rustLines output) 0 h, List.drop_zero]

/-- Claim C9, witness: the headerless single-row listing
`"a.service loaded active running"` satisfies the hypothesis and parses to
the candidate rows of the whole input. -/
theorem C9_witness :
    ServiceManager.parse_service_list "a.service loaded active running" =
      (ServiceManager.candidateRows (rustLines "a.service loaded active running")).filterMap
        ServiceManager.parse_service_line ∧
    ServiceManager.parse_service_list "a.service loaded active running" =
      [⟨"a", ServiceStatus.Active, none, false, true, "loaded", "running"⟩] :=
  C9_headerless_rows_parsed "a.service loaded active running" (by decide)

/-- Claim C7: the controller builds exactly the specified command lines:
`systemctl list-units --type=service --no-pager` with `--all` appended iff
`show_inactive`; `systemctl show <unit> --no-pager`; and `journalctl -u
<unit> --no-pager` with `-n <N>` appended iff a line bound is given. -/
theorem C7_command_surface :
    (∀ show_inactive : Bool,
        (ServiceManager.list_local_services_cmd show_inactive).program = "systemctl" ∧
        (ServiceManager.list_local_services_cmd show_inactive).argv =
          ["list-units", "--type=service", "--no-pager"] ++
            (if show_inactive then ["--all"] else [])) ∧
    (∀ service_name : String,
        ServiceManager.get_service_status_cmd service_name =
          ⟨"systemctl", ["show", service_name, "--no-pager"]⟩) ∧
    (∀ service_name : String, ∀ lines : Option Nat,
        (ServiceManager.get_service_logs_cmd service_name lines).program = "journalctl" ∧
        (ServiceManager.get_service_logs_cmd service_name lines).argv =
          ["-u", service_name, "--no-pager"] ++
            (match lines with | some n => ["-n", toString n] | none => [])) := by
  refine ⟨fun show_inactive => ?_, fun _ => rfl, fun service_name lines => ?_⟩
  · cases show_inactive <;> exact ⟨rfl, rfl⟩
  · cases lines <;> exact ⟨rfl, rfl⟩

/-- Claim C8: `create_service_file` fails atomically at the write step — on
a failed elevated write the trace holds only the write attempt (no reload)
and the error is the write message; after a successful write with a failed
reload the trace is write-then-reload and the error is the reload message;
no run ever deletes a file; and a reload-failure result is never equal to
any write-failure result, so the two failures are distinguishable. -/
theorem C8_install_partial_failure (env : InstallEnv) (service_name content : String) :
    (env.write.success = false →
      ServiceManager.create_service_file env service_name content =
        ([SysAction.elevatedWrite
            ("/etc/systemd/system/" ++ service_name ++ ".service") content],
         Except.error ("Failed to create service file: " ++ env.write.stderr))) ∧
    (env.write.success = true → env.reload.success = false →
      ServiceManager.create_service_file env service_name content =
        ([SysAction.elevatedWrite
            ("/etc/systemd/system/" ++ service_name ++ ".service") content,
          SysAction.systemctl ["daemon-reload"]],
         Except.error ("systemctl command failed: " ++ env.reload.stderr))) ∧
    (∀ p : String,
        SysAction.deleteFile p ∉ (ServiceManager.create_service_file env service_name content).1) ∧
    (∀ env2 : InstallEnv, ∀ name2 content2 : String,
        env.write.success = false → env2.write.success = true →
        env2.reload.success = false →
        (ServiceManager.create_service_file env service_name content).2 ≠
          (ServiceManager.create_service_file env2 name2 content2).2) := by
  refine ⟨?_, ?_, ?_, ?_⟩
  · intro hw
    unfold ServiceManager.create_service_file
    rw [hw]
    rfl
  · intro hw hr
    unfold ServiceManager.create_service_file ServiceManager.daemon_reload
      ServiceManager.run_systemctl_command
    rw [hw, hr]
    rfl
  · intro p
    rcases Bool.eq_false_or_eq_true env.write.success with hw | hw <;>
      simp [ServiceManager.create_service_file, ServiceManager.daemon_reload,
        ServiceManager.run_systemctl_command, hw]
  · intro env2 name2 content2 h1 h2 h3 heq
    unfold ServiceManager.create_service_file ServiceManager.daemon_reload
      ServiceManager.run_systemctl_command at heq
    rw [h1, h2, h3] at heq
    simp only [Bool.not_false, Bool.not_true, if_true, if_false] at heq
    injection heq with hmsg
    exact absurd hmsg (createMsg_ne_systemctlMsg _ _)

/-- Claim C8, witness: a concrete rejected write produces only the write
attempt and the write-failure message, and its result differs from a
concrete reload failure's result. -/
theorem C8_witness :
    ServiceManager.create_service_file ⟨⟨false, "denied"⟩, ⟨true, ""⟩⟩ "nginx" "[Unit]" =
      ([SysAction.elevatedWrite ("/etc/systemd/system/" ++ "nginx" ++ ".service") "[Unit]"],
       Except.error ("Failed to create service file: " ++ "denied")) ∧
    (ServiceManager.create_service_file ⟨⟨false, "denied"⟩, ⟨true, ""⟩⟩ "nginx" "[Unit]").2 ≠
      (ServiceManager.create_service_file ⟨⟨true, ""⟩, ⟨false, "boom"⟩⟩ "nginx" "[Unit]").2 :=
  ⟨(C8_install_partial_failure ⟨⟨false, "denied"⟩, ⟨true, ""⟩⟩ "nginx" "[Unit]").1 rfl,
   (C8_install_partial_failure ⟨⟨false, "denied"⟩, ⟨true, ""⟩⟩ "nginx" "[Unit]").2.2.2
     ⟨⟨true, ""⟩, ⟨false, "boom"⟩⟩ "nginx" "[Unit]" rfl rfl rfl⟩
